import Mathlib

/-!
Verification development for the `uniharmonic/monophonic` repository: a Go
logging facade (`logger/`, `xylitol.go`), Gin middleware (request logging,
panic recovery, uniform JSON response envelope) and a GORM log adapter
(`middleware/gorm_logger.go`).

Each Go function relevant to the checked properties is shallowly embedded as
an executable Lean definition.  External collaborator behaviour that the
embedded functions call into (zapcore level parsing, Gin context
abort/write primitives, net/http form parsing outcomes) is modelled
explicitly; nondeterministic inputs (UUIDs, elapsed time, parse outcomes)
are passed as parameters.
-/

namespace Monophonic

/-! ## Go `strings` helpers (ASCII case folding, substring containment)

`String.toLower` is used to model `strings.ToLower`; both lower-case ASCII
letters, which is the only case folding the embedded code depends on. -/

/-- Model of Go `unicode.ToLower` restricted to ASCII (the embedded code
only ever folds ASCII level names and error texts). -/
def charToLower (c : Char) : Char :=
  if c.toNat ≥ 65 ∧ c.toNat ≤ 90 then Char.ofNat (c.toNat + 32) else c

/-- Model of Go `strings.ToLower` (ASCII case folding), kept structurally
recursive so that concrete instances evaluate inside the kernel. -/
def strToLower (s : String) : String :=
  ⟨s.data.map charToLower⟩

/-- `listHasPrefix l p` models: the char list `p` is a prefix of `l`. -/
def listHasPrefix : List Char → List Char → Bool
  | _, [] => true
  | [], _ :: _ => false
  | c :: cs, p :: ps => c == p && listHasPrefix cs ps

/-- `listContainsSub l p` models: `p` occurs as a contiguous sublist of `l`. -/
def listContainsSub : List Char → List Char → Bool
  | [], p => p.isEmpty
  | l@(_ :: cs), p => listHasPrefix l p || listContainsSub cs p

/-- Model of Go `strings.Contains s pat`. -/
def strContains (s pat : String) : Bool :=
  listContainsSub s.data pat.data

/-! ## zapcore severity levels

`go.uber.org/zap/zapcore` levels, in their Go numeric encoding:
Debug = -1, Info = 0, Warn = 1, Error = 2, DPanic = 3, Panic = 4, Fatal = 5.
A record at level `l` passes a core configured at enabler level `e`
iff `e ≤ l`. -/

def debugLevel : Int := -1
def infoLevel : Int := 0
def warnLevel : Int := 1
def errorLevel : Int := 2
def dpanicLevel : Int := 3
def panicLevel : Int := 4
def fatalLevel : Int := 5

/-- Model of zapcore's `Level.unmarshalText` (the exact-match switch used by
`Level.UnmarshalText`): recognizes the lower- and upper-case spellings of
the seven level names, plus the empty string (mapped to Info, "make the
zero value useful" in zapcore's words). -/
def levelUnmarshalText (s : String) : Option Int :=
  if s = "debug" ∨ s = "DEBUG" then some debugLevel
  else if s = "info" ∨ s = "INFO" ∨ s = "" then some infoLevel
  else if s = "warn" ∨ s = "WARN" then some warnLevel
  else if s = "error" ∨ s = "ERROR" then some errorLevel
  else if s = "dpanic" ∨ s = "DPANIC" then some dpanicLevel
  else if s = "panic" ∨ s = "PANIC" then some panicLevel
  else if s = "fatal" ∨ s = "FATAL" then some fatalLevel
  else none

/-- Model of `zapcore.ParseLevel` / `Level.UnmarshalText`: try the text as
given, then lower-cased; `none` models the "unrecognized level" error. -/
def parseLevel (text : String) : Option Int :=
  match levelUnmarshalText text with
  | some l => some l
  | none => levelUnmarshalText (strToLower text)

/-- Embedding of `logger.GetLogLevel` (src/logger/log_level.go): delegate to
`zapcore.ParseLevel`; on parse error return `InfoLevel`. -/
def GetLogLevel (level : String) : Int :=
  match parseLevel level with
  | some lv => lv
  | none => infoLevel

/-- The six level names the specification lists for the Level Resolver. -/
def specLevelNames : List String :=
  ["debug", "info", "warn", "error", "fatal", "panic"]

/-- All texts accepted by zapcore's exact-match switch. -/
def recognizedLevelTexts : List String :=
  ["debug", "DEBUG", "info", "INFO", "", "warn", "WARN", "error", "ERROR",
   "dpanic", "DPANIC", "panic", "PANIC", "fatal", "FATAL"]

theorem levelUnmarshalText_mem (s : String) (h : levelUnmarshalText s ≠ none) :
    s ∈ recognizedLevelTexts := by
  simp only [levelUnmarshalText] at h
  split_ifs at h <;> simp_all [recognizedLevelTexts] <;> tauto

theorem levelUnmarshalText_lower (s : String) (h : levelUnmarshalText s ≠ none) :
    levelUnmarshalText (strToLower s) = levelUnmarshalText s := by
  have hs := levelUnmarshalText_mem s h
  fin_cases hs <;> decide

theorem parseLevel_eq_lower (s : String) :
    parseLevel s = levelUnmarshalText (strToLower s) := by
  rcases h : levelUnmarshalText s with _ | v
  · simp [parseLevel, h]
  · simp [parseLevel, h, levelUnmarshalText_lower s (by simp [h])]

theorem getLogLevel_lower (s : String) :
    GetLogLevel s = (levelUnmarshalText (strToLower s)).getD infoLevel := by
  unfold GetLogLevel
  rw [parseLevel_eq_lower]
  rcases levelUnmarshalText (strToLower s) with _ | v <;> rfl

/-- C1 (counterexample to the claim as stated): `"dpanic"` is not one of the
six supported level names the claim enumerates, so per the claim
`GetLogLevel "dpanic"` should be the Info level; the code delegates to
`zapcore.ParseLevel`, which also recognizes `"dpanic"`, and returns the
DPanic level instead. -/
theorem C1_level_resolver_cex :
    "dpanic" ∉ specLevelNames ∧ strToLower "dpanic" = "dpanic" ∧
      GetLogLevel "dpanic" = dpanicLevel ∧ GetLogLevel "dpanic" ≠ infoLevel := by
  decide

/-- C1 (amended): for every level name among {debug, info, warn, error,
fatal, panic} and every string in any letter-casing of that name,
`GetLogLevel` returns the same severity value as the canonical lowercase
spelling; additionally any casing of `"dpanic"` is recognized (returning the
DPanic severity, not Info); every string whose lowercase folding is not one
of the parser's accepted spellings (the seven names, their upper-case forms,
and the empty string) yields the Info level. -/
theorem C1_level_resolver_amended :
    (∀ s name, name ∈ specLevelNames → strToLower s = name →
        GetLogLevel s = GetLogLevel name)
    ∧ (∀ s, strToLower s = "dpanic" → GetLogLevel s = dpanicLevel)
    ∧ (∀ s, strToLower s ∉ recognizedLevelTexts → GetLogLevel s = infoLevel) := by
  refine ⟨?_, ?_, ?_⟩
  · intro s name hmem h
    rw [getLogLevel_lower s, h]
    fin_cases hmem <;> decide
  · intro s h
    rw [getLogLevel_lower s, h]
    decide
  · intro s h
    rw [getLogLevel_lower s]
    rcases hh : levelUnmarshalText (strToLower s) with _ | v
    · rfl
    · exact absurd (levelUnmarshalText_mem _ (by simp [hh])) h

/-- C1 witness: the amended theorem applied at concrete inputs. -/
theorem C1_level_resolver_witness :
    GetLogLevel "DeBuG" = GetLogLevel "debug" ∧ GetLogLevel "unknown" = infoLevel :=
  ⟨C1_level_resolver_amended.1 "DeBuG" "debug" (by decide) (by decide),
   C1_level_resolver_amended.2.2 "unknown" (by decide)⟩

/-! ## Log records and structured fields

`Sev` is the set of levels a log call in this repository is issued at;
`FieldVal` models the payload of a `zapcore.Field`. -/

/-- Model of a panicking handler's panic value, as classified by
`GinRecovery` (src/unnamed/part_003): `netOpErr sysCall errText` is a
`*net.OpError` whose nested error has `Error()` text `errText` and is a
`*os.SyscallError` iff `sysCall`; `otherVal` is any other panic value. -/
inductive PanicVal
  | netOpErr (sysCall : Bool) (errText : String)
  | otherVal (text : String)
  deriving DecidableEq, Repr

/-- Severity a log call is issued at. -/
inductive Sev
  | debug
  | info
  | warn
  | error
  | fatal
  deriving DecidableEq, Repr

/-- The zapcore numeric level of a severity. -/
def Sev.toLevel : Sev → Int
  | .debug => debugLevel
  | .info => infoLevel
  | .warn => warnLevel
  | .error => errorLevel
  | .fatal => fatalLevel

/-- Payload of a `zapcore.Field`.  `dur ns` models
`zap.Float64("time", elapsed.Seconds())` and carries the elapsed duration in
nanoseconds (the seconds value is `ns / 1e9` as a float, which this
development does not reason about); `errv` models `zap.Error`; `pv` models
`zap.Any("error", recoveredValue)`; `nilv` models `zap.Any` of a nil
payload. -/
inductive FieldVal
  | str (s : String)
  | int (i : Int)
  | dur (ns : Nat)
  | errv (text : String)
  | pv (p : PanicVal)
  | nilv
  deriving DecidableEq, Repr

/-- One structured log line: the severity it was issued at, its message, and
its ordered field set. -/
structure LogEntry where
  sev : Sev
  msg : String
  fields : List (String × FieldVal)
  deriving DecidableEq, Repr

/-! ## Logger facade (src/logger/logger.go, src/xylitol.go)

A `GLogger` holds the zap tee (a list of cores, each a sink plus a level
enabler), the caller-skip count, and the stored level text and file path.
Console/file encoder configuration (ISO-8601 timestamps, color, caller
info) and lumberjack rotation are delegated to external collaborators and
not modelled beyond sink identity. -/

/-- A log output destination. -/
inductive Sink
  | console
  | file (path : String)
  deriving DecidableEq, Repr

/-- One zapcore core of the tee: a sink filtered by a level enabler. -/
structure Core where
  sink : Sink
  enab : Int
  deriving DecidableEq, Repr

/-- The tee built by both `New` (src/xylitol.go) and
`GLogger.SetLogLevel` (src/logger/logger.go): a console core and a file
core at `path`, both enabled at the same resolved level. -/
def mkTeeCores (path : String) (lv : Int) : List Core :=
  [⟨Sink.console, lv⟩, ⟨Sink.file path, lv⟩]

/-- Embedding of `logger.GLogger`: `cores`/`callerSkip` stand for the
`ZapLogger` handle, `logLevel` and `logPath` for the `LogLevel` and
`LogPath` fields. -/
structure GLogger where
  cores : List Core
  callerSkip : Nat
  logLevel : String
  logPath : String
  deriving DecidableEq, Repr

/-- Embedding of `New` (src/xylitol.go). -/
def New (level logfile : String) : GLogger :=
  { cores := mkTeeCores logfile (GetLogLevel level)
    callerSkip := 2
    logLevel := level
    logPath := logfile }

/-- `var Default = New("debug", "tmp/run.log")` (src/xylitol.go): the
initial value of the process-wide default logger. -/
def DefaultInit : GLogger := New "debug" "tmp/run.log"

/-- Embedding of `GLogger.SetLogLevel` (src/logger/logger.go): store the new
level text, re-resolve it, rebuild both sinks and the tee from scratch, and
replace the zap handle (caller skip 2 again). -/
def GLogger.setLogLevel (g : GLogger) (level : String) : GLogger :=
  { cores := mkTeeCores g.logPath (GetLogLevel level)
    callerSkip := 2
    logLevel := level
    logPath := g.logPath }

theorem setLogLevel_logLevel (g : GLogger) (t : String) :
    (g.setLogLevel t).logLevel = t := rfl

/-- Emission of one log call through the tee: a zapcore core writes the
record iff its enabler level is at most the record's level.  Returns the
(sink, line) pairs actually written. -/
def GLogger.emit (g : GLogger) (sev : Sev) (msg : String)
    (fields : List (String × FieldVal)) : List (Sink × LogEntry) :=
  g.cores.filterMap fun c =>
    if c.enab ≤ sev.toLevel then some (c.sink, ⟨sev, msg, fields⟩) else none

/-- C8: after `SetLogLevel t`, the stored level text is `t`, the writer has
been rebuilt with exactly the console sink and the file sink (at the
logger's path), both filtered by the same resolved level `GetLogLevel t`,
and a subsequent log call is written to both sinks when its severity is at
or above the resolved level and to neither sink otherwise. -/
theorem C8_set_log_level (g : GLogger) (t : String) :
    (g.setLogLevel t).logLevel = t ∧
    (g.setLogLevel t).cores =
      [⟨Sink.console, GetLogLevel t⟩, ⟨Sink.file g.logPath, GetLogLevel t⟩] ∧
    (∀ sev msg fields,
      (g.setLogLevel t).emit sev msg fields =
        if GetLogLevel t ≤ sev.toLevel then
          [(Sink.console, ⟨sev, msg, fields⟩),
           (Sink.file g.logPath, ⟨sev, msg, fields⟩)]
        else []) := by
  refine ⟨rfl, rfl, fun sev msg fields => ?_⟩
  by_cases h : GetLogLevel t ≤ sev.toLevel <;>
    simp [GLogger.emit, GLogger.setLogLevel, mkTeeCores, List.filterMap, h]

/-! ## GORM log adapter (src/middleware/gorm_logger.go)

The adapter's methods act on the process-wide default logger; that global
is threaded explicitly as an argument/result. -/

/-- `gorm.io/gorm/logger` level constants: Silent=1, Error=2, Warn=3,
Info=4. -/
def gormSilent : Int := 1
def gormErrorLv : Int := 2
def gormWarnLv : Int := 3
def gormInfoLv : Int := 4

/-- Embedding of `middleware.GormLogger`: its single `SlowThreshold`
field, a `time.Duration` in nanoseconds. -/
structure GormLogger where
  slowThreshold : Nat
  deriving DecidableEq, Repr

/-- Embedding of `GormLogger.LogMode`: switch on the ORM level, call
`SetLogLevel` on the default logger with the mapped level text, and return
the receiver.  Result is (returned adapter, updated default logger). -/
def GormLogger.logMode (l : GormLogger) (dflt : GLogger) (level : Int) :
    GormLogger × GLogger :=
  let dflt2 :=
    if level = gormSilent then dflt.setLogLevel "fatal"
    else if level = gormInfoLv then dflt.setLogLevel "debug"
    else if level = gormWarnLv then dflt.setLogLevel "warn"
    else if level = gormErrorLv then dflt.setLogLevel "error"
    else dflt.setLogLevel "debug"
  (l, dflt2)

/-- Outcome of a GORM query error, as observed by `Trace`:
`recordNotFound` is `errors.Is(err, gorm.ErrRecordNotFound)`, `text` is
`err.Error()`. -/
structure GormErr where
  recordNotFound : Bool
  text : String
  deriving DecidableEq, Repr

/-- Embedding of `GormLogger.Trace`: `elapsed` is `time.Since(begin)` in
nanoseconds, `(sql, rows)` is the outcome of `fc()`.  Returns the log call
issued on the default logger. -/
def GormLogger.trace (l : GormLogger) (elapsed : Nat) (sql : String)
    (rows : Int) (err : Option GormErr) : LogEntry :=
  let logFields : List (String × FieldVal) :=
    [("sql", FieldVal.str sql), ("time", FieldVal.dur elapsed),
     ("rows", FieldVal.int rows)]
  match err with
  | some e =>
    if e.recordNotFound then
      ⟨Sev.warn, "[GORM] ErrRecordNotFound", logFields⟩
    else
      ⟨Sev.error, "[GORM] Error", logFields ++ [("error", FieldVal.errv e.text)]⟩
  | none =>
    if l.slowThreshold ≠ 0 ∧ elapsed > l.slowThreshold then
      ⟨Sev.warn, "[GORM] Slow Log", logFields⟩
    else
      ⟨Sev.debug, "[GORM] Query", logFields⟩

/-- Embedding of `GetGormConfig`: build an adapter with zero
`SlowThreshold`, call `SetLogLevel level` on the default logger, and return
the config holding the adapter (paired with the updated default logger). -/
def GetGormConfig (level : String) (dflt : GLogger) : GormLogger × GLogger :=
  (⟨0⟩, dflt.setLogLevel level)

/-- C6: `LogMode` maps Silent to "fatal", the ORM's Info to "debug", Warn
to "warn", Error to "error" and every other value to "debug", mutates the
shared default logger by calling `SetLogLevel` with that text (so its
stored level becomes the mapped text), and returns the adapter itself
unchanged. -/
theorem C6_log_mode (l : GormLogger) (g : GLogger) (level : Int) :
    ((l.logMode g level).1 = l) ∧
    (level = gormSilent →
      (l.logMode g level).2 = g.setLogLevel "fatal" ∧
      (l.logMode g level).2.logLevel = "fatal") ∧
    (level = gormInfoLv →
      (l.logMode g level).2 = g.setLogLevel "debug" ∧
      (l.logMode g level).2.logLevel = "debug") ∧
    (level = gormWarnLv →
      (l.logMode g level).2 = g.setLogLevel "warn" ∧
      (l.logMode g level).2.logLevel = "warn") ∧
    (level = gormErrorLv →
      (l.logMode g level).2 = g.setLogLevel "error" ∧
      (l.logMode g level).2.logLevel = "error") ∧
    (level ∉ ([gormSilent, gormInfoLv, gormWarnLv, gormErrorLv] : List Int) →
      (l.logMode g level).2 = g.setLogLevel "debug" ∧
      (l.logMode g level).2.logLevel = "debug") := by
  refine ⟨rfl, ?_, ?_, ?_, ?_, ?_⟩ <;> intro h <;>
    simp_all [GormLogger.logMode, GLogger.setLogLevel, gormSilent, gormInfoLv,
      gormWarnLv, gormErrorLv]

/-- C6 witness: `LogMode(Silent)` on the initial default logger. -/
theorem C6_log_mode_witness :
    ((⟨0⟩ : GormLogger).logMode DefaultInit gormSilent).2 =
      DefaultInit.setLogLevel "fatal" :=
  ((C6_log_mode ⟨0⟩ DefaultInit gormSilent).2.1 rfl).1

/-- C5 (counterexample to the claim as stated): on an adapter whose
configured slow-query threshold is 0, a nil-error `Trace` call whose
elapsed time (5ns) exceeds that configured threshold logs at Debug as a
plain query, not at Warn as a slow query, because the code additionally
requires the threshold to be nonzero. -/
theorem C5_trace_cex :
    (0 : Nat) < 5 ∧
    (GormLogger.trace ⟨0⟩ 5 "SELECT * FROM users" 0 none).sev = Sev.debug ∧
    (GormLogger.trace ⟨0⟩ 5 "SELECT * FROM users" 0 none).sev ≠ Sev.warn := by
  decide

/-- C5 (amended): `Trace` classifies a record-not-found error at Warn; any
other non-nil error at Error with the error text attached as a field; a
nil error whose elapsed time exceeds a *nonzero* configured slow-query
threshold at Warn tagged slow; and otherwise (nil error, with the
threshold zero or not exceeded) at Debug tagged as a query; on every path
the fields include the statement text, the elapsed time, and the
affected-row count. -/
theorem C5_trace_amended (l : GormLogger) (elapsed : Nat) (sql : String)
    (rows : Int) (err : Option GormErr) :
    (∀ e, err = some e → e.recordNotFound = true →
      (l.trace elapsed sql rows err).sev = Sev.warn ∧
      (l.trace elapsed sql rows err).msg = "[GORM] ErrRecordNotFound") ∧
    (∀ e, err = some e → e.recordNotFound = false →
      (l.trace elapsed sql rows err).sev = Sev.error ∧
      (l.trace elapsed sql rows err).msg = "[GORM] Error" ∧
      ("error", FieldVal.errv e.text) ∈ (l.trace elapsed sql rows err).fields) ∧
    (err = none → l.slowThreshold ≠ 0 → elapsed > l.slowThreshold →
      (l.trace elapsed sql rows err).sev = Sev.warn ∧
      (l.trace elapsed sql rows err).msg = "[GORM] Slow Log") ∧
    (err = none → (l.slowThreshold = 0 ∨ elapsed ≤ l.slowThreshold) →
      (l.trace elapsed sql rows err).sev = Sev.debug ∧
      (l.trace elapsed sql rows err).msg = "[GORM] Query") ∧
    (("sql", FieldVal.str sql) ∈ (l.trace elapsed sql rows err).fields ∧
     ("time", FieldVal.dur elapsed) ∈ (l.trace elapsed sql rows err).fields ∧
     ("rows", FieldVal.int rows) ∈ (l.trace elapsed sql rows err).fields) := by
  refine ⟨?_, ?_, ?_, ?_, ?_⟩
  · rintro e rfl he
    simp [GormLogger.trace, he]
  · rintro e rfl he
    simp [GormLogger.trace, he]
  · rintro rfl h0 hgt
    simp [GormLogger.trace, h0, hgt]
  · rintro rfl hle
    have hcond : ¬(l.slowThreshold ≠ 0 ∧ elapsed > l.slowThreshold) := by
      rcases hle with h0 | hle
      · simp [h0]
      · exact fun hc => absurd hc.2 (Nat.not_lt.mpr hle)
    simp [GormLogger.trace, hcond]
  · rcases err with _ | e <;> simp [GormLogger.trace] <;> split_ifs <;> simp

/-- C5 witness: the amended theorem applied to a record-not-found error and
to a slow query against a nonzero threshold. -/
theorem C5_trace_witness :
    ((GormLogger.trace ⟨0⟩ 7 "SELECT 1" 1 (some ⟨true, "record not found"⟩)).sev
      = Sev.warn) ∧
    ((GormLogger.trace ⟨100⟩ 200 "SELECT 2" 0 none).sev = Sev.warn) :=
  ⟨((C5_trace_amended ⟨0⟩ 7 "SELECT 1" 1 (some ⟨true, "record not found"⟩)).1
      ⟨true, "record not found"⟩ rfl rfl).1,
   ((C5_trace_amended ⟨100⟩ 200 "SELECT 2" 0 none).2.2.1 rfl (by decide)
      (by decide)).1⟩

/-- C10: `GetGormConfig` constructs the adapter with `SlowThreshold` zero,
and on such an adapter every nil-error `Trace` call logs at Debug tagged as
a query — never at Warn as a slow query — regardless of elapsed time. -/
theorem C10_zero_threshold (level : String) (g : GLogger) (elapsed : Nat)
    (sql : String) (rows : Int) :
    (GetGormConfig level g).1.slowThreshold = 0 ∧
    ((GetGormConfig level g).1.trace elapsed sql rows none).sev = Sev.debug ∧
    ((GetGormConfig level g).1.trace elapsed sql rows none).msg = "[GORM] Query" ∧
    ((GetGormConfig level g).1.trace elapsed sql rows none).sev ≠ Sev.warn := by
  refine ⟨rfl, ?_, ?_, ?_⟩ <;> simp [GormLogger.trace, GetGormConfig]

/-! ## Response envelope (src/GResponse/Response.go, src/unnamed/part_001)

`Response` is the JSON envelope; the `any`-typed `Data` payload is stood
for by `Option String` (`none` models nil).  The `response` package's
`OK`/`Error` operate on the Gin context and the package-level template
`DefaultReturn`; both are threaded explicitly through `RespCtx`. -/

/-- Go `int32(n)` conversion: reduce into the interval
`[-2147483648, 2147483648)` (that is, `[-2^31, 2^31)`). -/
def toInt32 (n : Int) : Int := (n + 2147483648) % 4294967296 - 2147483648

theorem toInt32_eq_self {n : Int} (h1 : -2147483648 ≤ n)
    (h2 : n < 2147483648) : toInt32 n = n := by
  unfold toInt32
  omega

/-- Embedding of `GResponse.Response`. -/
structure Response where
  traceID : String
  code : Int
  info : String
  msg : String
  status : String
  data : Option String
  deriving DecidableEq, Repr

/-- The Go zero value `Response{}` — the initial value of the cell
`DefaultReturn` points to. -/
def Response.zero : Response := ⟨"", 0, "", "", "", none⟩

/-- `Response.SetTraceID`. -/
def Response.setTraceID (r : Response) (id : String) : Response :=
  { r with traceID := id }

/-- `Response.SetCode`. -/
def Response.setCode (r : Response) (code : Int) : Response :=
  { r with code := code }

/-- `Response.SetMsg`. -/
def Response.setMsg (r : Response) (m : String) : Response :=
  { r with msg := m }

/-- `Response.SetInfo`. -/
def Response.setInfo (r : Response) (i : String) : Response :=
  { r with info := i }

/-- `Response.SetData`. -/
def Response.setData (r : Response) (d : Option String) : Response :=
  { r with data := d }

/-- `Response.Success`: only a non-success marks the status; a success
leaves the (empty) status untouched. -/
def Response.success (r : Response) (isSuccess : Bool) : Response :=
  if isSuccess then r else { r with status := "error" }

/-- `Response.GetFields`: the envelope's attributes as structured log
fields. -/
def Response.getFields (r : Response) : List (String × FieldVal) :=
  [("requestId", FieldVal.str r.traceID), ("code", FieldVal.int r.code),
   ("info", FieldVal.str r.info), ("msg", FieldVal.str r.msg),
   ("status", FieldVal.str r.status),
   ("data", match r.data with | some d => FieldVal.str d | none => FieldVal.nilv)]

/-- `Response.Clone`: `clonedRes := *res` — a copy of the struct value, so
the caller gets a fresh cell holding the same field values (the `data`
payload itself is shared by reference; its stand-in is copied). -/
def Response.clone (r : Response) : Response := r

/-- State touched by the `response` package for one request: `template` is
the cell the package-level `DefaultReturn` points to; `keys` is the Gin
per-request store (`c.Set`); `logs` the log calls issued through the
default logger; `writes` the HTTP responses written (transport status and
JSON body); `aborted` the Gin abort flag; `executed` the ids of the
handlers that have run. -/
structure RespCtx where
  template : Response
  keys : List (String × Response)
  logs : List LogEntry
  writes : List (Int × Response)
  aborted : Bool
  executed : List Nat
  deriving DecidableEq, Repr

/-- Embedding of `response.Error`: `fullPath` is `c.FullPath()`, `tid` the
UUID minted by `GenerateTraceId`, `err` models the `error` argument
(`some t` carries `err.Error() = t`, `none` is a nil error).  Clones the
template, marks failure, stamps trace id, code (through int32), message and
info (the error text overriding the message when the error is non-nil),
logs the fields at Error level tagged `[Return]`, stores the envelope under
`"result"`, and aborts with a status-200 JSON write. -/
def Error (c : RespCtx) (fullPath tid : String) (code : Int)
    (err : Option String) (msg : String) : RespCtx :=
  let res := c.template.clone
  let res := res.success false
  let res := res.setTraceID tid
  let res := res.setCode (toInt32 code)
  let res := res.setMsg msg
  let res := res.setInfo msg
  let res := match err with
    | some t => res.setInfo t
    | none => res
  { c with
    logs := c.logs ++ [⟨Sev.error, "[Return]" ++ fullPath, res.getFields⟩]
    keys := c.keys ++ [("result", res)]
    writes := c.writes ++ [(200, res)]
    aborted := true }

/-- Embedding of `response.OK`: clone the template, mark success (a no-op
on the status), stamp trace id, the fixed code 200, message, info (equal to
the message) and the payload, log the fields at Info level tagged
`[Return]`, store the envelope under `"result"`, and abort with a
status-200 JSON write. -/
def OK (c : RespCtx) (fullPath tid : String) (data : Option String)
    (msg : String) : RespCtx :=
  let res := c.template.clone
  let res := res.success true
  let res := res.setTraceID tid
  let res := res.setCode 200
  let res := res.setMsg msg
  let res := res.setInfo msg
  let res := res.setData data
  { c with
    logs := c.logs ++ [⟨Sev.info, "[Return]" ++ fullPath, res.getFields⟩]
    keys := c.keys ++ [("result", res)]
    writes := c.writes ++ [(200, res)]
    aborted := true }

/-- Gin's chain dispatch (`c.Next`): run each remaining handler in order;
once the context is aborted (`c.Abort` sets the index past the chain) no
further handler runs.  Each executed handler records its id. -/
def runChain : List (Nat × (RespCtx → RespCtx)) → RespCtx → RespCtx
  | [], c => c
  | (id, h) :: rest, c =>
    if c.aborted then c
    else runChain rest (h { c with executed := c.executed ++ [id] })

theorem runChain_aborted (rest : List (Nat × (RespCtx → RespCtx)))
    (c : RespCtx) (h : c.aborted = true) : runChain rest c = c := by
  cases rest with
  | nil => rfl
  | cons x r => simp [runChain, h]

/-- C3: after any `OK` or `Error` call on a context with no prior response
write, the chain is aborted (no subsequent handler in the chain executes,
whatever it would do), exactly one HTTP response has been written, and its
transport status is the fixed 200 regardless of the semantic code in the
payload. -/
theorem C3_abort_and_fixed_200 (c : RespCtx) (fullPath tid : String)
    (hw : c.writes = []) :
    (∀ data msg rest,
      (OK c fullPath tid data msg).aborted = true ∧
      (OK c fullPath tid data msg).writes.length = 1 ∧
      (∀ w ∈ (OK c fullPath tid data msg).writes, w.1 = 200) ∧
      runChain rest (OK c fullPath tid data msg) = OK c fullPath tid data msg) ∧
    (∀ code err msg rest,
      (Error c fullPath tid code err msg).aborted = true ∧
      (Error c fullPath tid code err msg).writes.length = 1 ∧
      (∀ w ∈ (Error c fullPath tid code err msg).writes, w.1 = 200) ∧
      runChain rest (Error c fullPath tid code err msg) =
        Error c fullPath tid code err msg) := by
  constructor
  · intro data msg rest
    refine ⟨rfl, by simp [OK, hw], by simp [OK, hw], runChain_aborted rest _ rfl⟩
  · intro code err msg rest
    refine ⟨rfl, by simp [Error, hw], by simp [Error, hw],
      runChain_aborted rest _ rfl⟩

/-- C3 witness: the theorem applied to a fresh context. -/
theorem C3_abort_and_fixed_200_witness :
    (OK ⟨Response.zero, [], [], [], false, []⟩ "/ping" "tid" none "done").aborted
      = true :=
  ((C3_abort_and_fixed_200 ⟨Response.zero, [], [], [], false, []⟩ "/ping" "tid"
    rfl).1 none "done" []).1

/-- C2 (counterexample to the claim as stated): calling `Error` with the
code 2147483648 = 2^31, which is a valid Go `int` but not representable in
`int32`, produces an envelope whose code is the wrapped value -2147483648,
not the supplied code, because `SetCode(int32(code))` converts the argument
through `int32`. -/
theorem C2_envelope_cex :
    ((Error ⟨Response.zero, [], [], [], false, []⟩ "/p" "tid" 2147483648 none
        "m").writes.map fun w => w.2.code) = [-2147483648] ∧
    (-2147483648 : Int) ≠ 2147483648 := by
  decide

/-- C2 (amended): on a context whose shared template is still the zero
value, `OK(ctx, data, msg)` writes and logs an envelope with empty
(success) status, code 200, msg and info both equal to the supplied
message, and the supplied data; `Error(ctx, code, err, msg)` writes and
logs an envelope with status "error", msg equal to the supplied message,
info equal to the error's text when the error is non-nil else the message,
and — whenever the supplied code is representable in int32 — that supplied
code (in general the code reduced into int32 range). -/
theorem C2_envelope_amended (c : RespCtx) (fullPath tid : String)
    (ht : c.template = Response.zero) :
    (∀ data msg,
      (OK c fullPath tid data msg).writes =
        c.writes ++ [(200, ⟨tid, 200, msg, msg, "", data⟩)] ∧
      (OK c fullPath tid data msg).logs =
        c.logs ++ [⟨Sev.info, "[Return]" ++ fullPath,
          Response.getFields ⟨tid, 200, msg, msg, "", data⟩⟩]) ∧
    (∀ code err msg, -2147483648 ≤ code → code < 2147483648 →
      (Error c fullPath tid code err msg).writes =
        c.writes ++
          [(200, ⟨tid, code, (match err with | some t => t | none => msg),
            msg, "error", none⟩)] ∧
      (Error c fullPath tid code err msg).logs =
        c.logs ++ [⟨Sev.error, "[Return]" ++ fullPath,
          Response.getFields ⟨tid, code,
            (match err with | some t => t | none => msg), msg, "error",
            none⟩⟩]) := by
  constructor
  · intro data msg
    constructor <;>
      simp [OK, ht, Response.zero, Response.clone, Response.success,
        Response.setTraceID, Response.setCode, Response.setMsg,
        Response.setInfo, Response.setData]
  · intro code err msg h1 h2
    rcases err with _ | t <;>
      constructor <;>
        simp [Error, ht, Response.zero, Response.clone, Response.success,
          Response.setTraceID, Response.setCode, Response.setMsg,
          Response.setInfo, toInt32_eq_self h1 h2]

/-- C2 witness: the amended theorem applied to a fresh context, concrete
payload and a non-nil error. -/
theorem C2_envelope_witness :
    (Error ⟨Response.zero, [], [], [], false, []⟩ "/login" "tid" 401
        (some "bad creds") "Invalid username or password").writes =
      [(200, ⟨"tid", 401, "bad creds", "Invalid username or password",
        "error", none⟩)] :=
  (((C2_envelope_amended ⟨Response.zero, [], [], [], false, []⟩ "/login" "tid"
    rfl).2 401 (some "bad creds") "Invalid username or password" (by decide)
    (by decide)).1)

/-- A handler's invocation of the response package, as data: the arguments
of one `OK` or `Error` call. -/
inductive RespCall
  | ok (fullPath tid : String) (data : Option String) (msg : String)
  | err (fullPath tid : String) (code : Int) (e : Option String) (msg : String)
  deriving DecidableEq, Repr

/-- Run a sequence of `OK`/`Error` calls against a context. -/
def runCalls : List RespCall → RespCtx → RespCtx
  | [], c => c
  | RespCall.ok p t d m :: rest, c => runCalls rest (OK c p t d m)
  | RespCall.err p t cd e m :: rest, c => runCalls rest (Error c p t cd e m)

theorem OK_template (c : RespCtx) (p t : String) (d : Option String)
    (m : String) : (OK c p t d m).template = c.template := rfl

theorem Error_template (c : RespCtx) (p t : String) (cd : Int)
    (e : Option String) (m : String) :
    (Error c p t cd e m).template = c.template := rfl

theorem runCalls_template (calls : List RespCall) (c : RespCtx) :
    (runCalls calls c).template = c.template := by
  induction calls generalizing c with
  | nil => rfl
  | cons call rest ih =>
    cases call with
    | ok p t d m => rw [runCalls, ih, OK_template]
    | err p t cd e m => rw [runCalls, ih, Error_template]

/-- C9: every sequence of `OK`/`Error` calls leaves the shared template
`DefaultReturn` unchanged — in particular it keeps all its fields at their
zero values when it started as the zero template, since every setter is
applied to a clone — and consequently the envelope written by an `OK` or
`Error` call after any such history equals the one written by the same
call on a fresh context. -/
theorem C9_template_frame (calls : List RespCall) (c : RespCtx)
    (ht : c.template = Response.zero) :
    ((runCalls calls c).template = c.template) ∧
    ((runCalls calls c).template = Response.zero) ∧
    (∀ p t d m,
      (OK (runCalls calls c) p t d m).writes.getLast? =
        (OK ⟨Response.zero, [], [], [], false, []⟩ p t d m).writes.getLast?) ∧
    (∀ p t cd e m,
      (Error (runCalls calls c) p t cd e m).writes.getLast? =
        (Error ⟨Response.zero, [], [], [], false, []⟩ p t cd e m).writes.getLast?) := by
  refine ⟨runCalls_template calls c, (runCalls_template calls c).trans ht,
    ?_, ?_⟩
  · intro p t d m
    simp [OK, (runCalls_template calls c).trans ht]
  · intro p t cd e m
    simp [Error, (runCalls_template calls c).trans ht]

/-- C9 witness: after a preceding `OK` call, a second `OK` writes the same
envelope a fresh context would. -/
theorem C9_template_frame_witness :
    (OK (runCalls [RespCall.ok "/a" "t1" none "m1"]
        ⟨Response.zero, [], [], [], false, []⟩) "/b" "t2" none "m2").writes.getLast?
      = (OK ⟨Response.zero, [], [], [], false, []⟩ "/b" "t2" none
          "m2").writes.getLast? :=
  (C9_template_frame [RespCall.ok "/a" "t1" none "m1"]
    ⟨Response.zero, [], [], [], false, []⟩ rfl).2.2.1 "/b" "t2" none "m2"

/-! ## Panic recovery middleware (src/unnamed/part_003) -/

/-- The parts of the inbound request that `GinRecovery` observes. -/
structure HttpReq where
  path : String
  headers : String
  body : String
  deriving DecidableEq, Repr

/-- Model of `httputil.DumpRequest r includeBody`: the header section, plus
the body iff requested. -/
def dumpRequest (r : HttpReq) (includeBody : Bool) : String :=
  if includeBody then r.headers ++ r.body else r.headers

/-- The broken-pipe classification in `GinRecovery`: the panic value is a
`*net.OpError` whose nested error is a `*os.SyscallError` whose text,
lowercased, contains "broken pipe" or "connection reset by peer". -/
def isBrokenPipe : PanicVal → Bool
  | PanicVal.netOpErr true t =>
      strContains (strToLower t) "broken pipe" ||
      strContains (strToLower t) "connection reset by peer"
  | _ => false

/-- Per-request effects of the recovery middleware: log calls issued, the
Gin private error list (`c.Error`), the abort flag, transport-status writes
(`AbortWithStatus`) and body writes. -/
structure RecoverySt where
  logs : List LogEntry
  ginErrors : List PanicVal
  aborted : Bool
  statusWrites : List Int
  bodyWrites : List String
  deriving DecidableEq, Repr

/-- Embedding of the deferred recovery body of
`middleware.GinRecovery(stack)`: `pv` is the value returned by `recover()`
(`none` when the handler did not panic) and `stackTrace` the text
`debug.Stack()` captures at the recovery point.  A broken-pipe panic is
logged once at Error with the error and a headers-only request dump,
forwarded into the private error list, and the chain aborted with no
status write; any other panic is logged once at Error (with the stack
trace iff `stack`) and the chain aborted with status 500 and no body. -/
def ginRecovery (stack : Bool) (req : HttpReq) (stackTrace : String)
    (pv : Option PanicVal) (s : RecoverySt) : RecoverySt :=
  match pv with
  | none => s
  | some err =>
    let brokenPipe := isBrokenPipe err
    let httpRequest := dumpRequest req false
    if brokenPipe then
      { s with
        logs := s.logs ++ [⟨Sev.error, req.path,
          [("error", FieldVal.pv err), ("request", FieldVal.str httpRequest)]⟩]
        ginErrors := s.ginErrors ++ [err]
        aborted := true }
    else
      let logFields := [("error", FieldVal.pv err),
        ("request", FieldVal.str httpRequest)]
      let logFields :=
        if stack then logFields ++ [("stack", FieldVal.str stackTrace)]
        else logFields
      { s with
        logs := s.logs ++ [⟨Sev.error, "[Recovery from panic]", logFields⟩]
        aborted := true
        statusWrites := s.statusWrites ++ [500] }

/-- C4: if the panic value is a network-operation error whose nested
system-call error text contains "broken pipe" or "connection reset by
peer" (case-insensitively), the middleware logs exactly one Error line
with the error and a headers-only request dump, forwards the error into
the private error list, aborts the chain, and writes no HTTP status; for
any other panic value it logs exactly one Error line — whose fields
include the stack trace iff the caller-supplied stack flag is true — and
aborts the chain with status 500 and no body. -/
theorem C4_gin_recovery (stack : Bool) (req : HttpReq) (stackTrace : String)
    (pv : PanicVal) (s : RecoverySt) :
    (isBrokenPipe pv = true →
      (ginRecovery stack req stackTrace (some pv) s).logs =
        s.logs ++ [⟨Sev.error, req.path,
          [("error", FieldVal.pv pv),
           ("request", FieldVal.str req.headers)]⟩] ∧
      (ginRecovery stack req stackTrace (some pv) s).ginErrors =
        s.ginErrors ++ [pv] ∧
      (ginRecovery stack req stackTrace (some pv) s).aborted = true ∧
      (ginRecovery stack req stackTrace (some pv) s).statusWrites =
        s.statusWrites ∧
      (ginRecovery stack req stackTrace (some pv) s).bodyWrites =
        s.bodyWrites) ∧
    (isBrokenPipe pv = false →
      (ginRecovery stack req stackTrace (some pv) s).logs =
        s.logs ++ [⟨Sev.error, "[Recovery from panic]",
          if stack then
            [("error", FieldVal.pv pv), ("request", FieldVal.str req.headers),
             ("stack", FieldVal.str stackTrace)]
          else
            [("error", FieldVal.pv pv),
             ("request", FieldVal.str req.headers)]⟩] ∧
      (ginRecovery stack req stackTrace (some pv) s).ginErrors = s.ginErrors ∧
      (ginRecovery stack req stackTrace (some pv) s).aborted = true ∧
      (ginRecovery stack req stackTrace (some pv) s).statusWrites =
        s.statusWrites ++ [500] ∧
      (ginRecovery stack req stackTrace (some pv) s).bodyWrites =
        s.bodyWrites) := by
  constructor <;> intro h <;>
    simp [ginRecovery, dumpRequest, h]

/-- C4 witness: the theorem applied to a wrapped broken-pipe panic and to
an ordinary panic. -/
theorem C4_gin_recovery_witness :
    (ginRecovery true ⟨"/p", "HDRS", "BODY"⟩ "trace"
        (some (PanicVal.netOpErr true "write tcp: Broken Pipe"))
        ⟨[], [], false, [], []⟩).statusWrites = [] ∧
    (ginRecovery true ⟨"/p", "HDRS", "BODY"⟩ "trace"
        (some (PanicVal.otherVal "boom"))
        ⟨[], [], false, [], []⟩).statusWrites = [500] :=
  ⟨((C4_gin_recovery true ⟨"/p", "HDRS", "BODY"⟩ "trace"
      (PanicVal.netOpErr true "write tcp: Broken Pipe")
      ⟨[], [], false, [], []⟩).1 (by decide)).2.2.2.1,
   ((C4_gin_recovery true ⟨"/p", "HDRS", "BODY"⟩ "trace"
      (PanicVal.otherVal "boom")
      ⟨[], [], false, [], []⟩).2 (by decide)).2.2.2.1⟩

/-! ## Parameter capture (`getParams`, src/unnamed/part_001) -/

/-- `const maxMemory = 32 << 20`: the multipart buffering cap in bytes. -/
def maxMemory : Nat := 32 <<< 20

/-- The portion of a char list before the first `;` (the whole list when
there is none). -/
def takeUntilSemi : List Char → List Char
  | [] => []
  | c :: cs => if c = ';' then [] else c :: takeUntilSemi cs

/-- `strings.Split(s, ";")[0]`: the declared media type without
parameters. -/
def contentTypeMain (s : String) : String := ⟨takeUntilSemi s.data⟩

/-- JSON string quoting as `encoding/json` applies to the plain keys and
values occurring here (escaping of special characters is not modelled). -/
def jsonQuote (s : String) : String := "\"" ++ s ++ "\""

/-- JSON array of strings. -/
def jsonArr (vs : List String) : String :=
  "[" ++ String.intercalate "," (vs.map jsonQuote) ++ "]"

/-- Model of `json.Marshal` on `url.Values` (`map[string][]string`), keys
serialized in the order of the association list. -/
def jsonMarshalValues (values : List (String × List String)) : String :=
  "\x7b" ++
    String.intercalate ","
      (values.map fun kv => jsonQuote kv.1 ++ ":" ++ jsonArr kv.2) ++
  "\x7d"

/-- The parts of the request `getParams` observes: the method, the
`Content-Type` header value, the raw URL query, and the readable body. -/
structure ParamReq where
  method : String
  contentType : String
  rawQuery : String
  body : String
  deriving DecidableEq, Repr

/-- Outcomes of the external `net/http` calls for this request:
`parseForm` is the request's `PostForm` when `ParseForm` succeeds (`none`
models a parse error); `parseMultipartForm m` likewise for
`ParseMultipartForm(m)`; `readAllOk` tells whether `io.ReadAll` on the
body succeeds. -/
structure ParseEnv where
  parseForm : Option (List (String × List String))
  parseMultipartForm : Nat → Option (List (String × List String))
  readAllOk : Bool

/-- Embedding of `getParams`: returns the captured parameter text together
with the request as downstream handlers see it afterwards (its body
reconstructed in the raw-body branch).  Note that every failing branch
falls through to returning the raw URL query. -/
def getParams (env : ParseEnv) (req : ParamReq) : String × ParamReq :=
  if req.method = "POST" then
    if contentTypeMain req.contentType = "application/x-www-form-urlencoded" then
      match env.parseForm with
      | some values => (jsonMarshalValues values, req)
      | none => (req.rawQuery, req)
    else if contentTypeMain req.contentType = "application/form-data" then
      match env.parseMultipartForm maxMemory with
      | some values => (jsonMarshalValues values, req)
      | none => (req.rawQuery, req)
    else if contentTypeMain req.contentType = "multipart/form-data" then
      match env.parseMultipartForm maxMemory with
      | some values => (jsonMarshalValues values, req)
      | none => (req.rawQuery, req)
    else
      match (if env.readAllOk then some req.body else none) with
      | some requestBody =>
        let reqRead := { req with body := "" }
        let reqRestored := { reqRead with body := requestBody }
        (requestBody, reqRestored)
      | none => (req.rawQuery, req)
  else (req.rawQuery, req)

/-- C7 (counterexample to the claim as stated): a POST declaring
URL-encoded form data whose body fails to parse, sent to a URL carrying
the query string "a=1", is captured as "a=1" — the raw query string — not
as the empty string: a capture parse failure falls through to the
non-POST return. -/
theorem C7_get_params_cex :
    (getParams ⟨none, fun _ => none, true⟩
      ⟨"POST", "application/x-www-form-urlencoded", "a=1", "%zz"⟩).1 = "a=1" ∧
    "a=1" ≠ "" := by
  constructor
  · rfl
  · decide

/-- C7 (amended): for a POST declaring `application/x-www-form-urlencoded`,
the parsed form values are re-serialized to JSON text, and a parse failure
degrades to the raw query string (hence to empty only when the URL carries
no query); a POST declaring `multipart/form-data` — or the non-standard
`application/form-data`, which the code treats the same way — is parsed as
multipart with buffering capped at `maxMemory` = 32 MiB and re-serialized
likewise, degrading to the raw query string on failure; for a POST with
any other declared content type the raw body is captured and a fresh
readable body is reconstructed so downstream handlers see it intact; for
every non-POST request the raw query string is returned verbatim. -/
theorem C7_get_params_amended (env : ParseEnv) (req : ParamReq) :
    (req.method = "POST" →
      contentTypeMain req.contentType = "application/x-www-form-urlencoded" →
      (∀ values, env.parseForm = some values →
        getParams env req = (jsonMarshalValues values, req)) ∧
      (env.parseForm = none → getParams env req = (req.rawQuery, req))) ∧
    (req.method = "POST" →
      (contentTypeMain req.contentType = "multipart/form-data" ∨
       contentTypeMain req.contentType = "application/form-data") →
      (∀ values, env.parseMultipartForm maxMemory = some values →
        getParams env req = (jsonMarshalValues values, req)) ∧
      (env.parseMultipartForm maxMemory = none →
        getParams env req = (req.rawQuery, req))) ∧
    (req.method = "POST" →
      contentTypeMain req.contentType ∉
        (["application/x-www-form-urlencoded", "application/form-data",
          "multipart/form-data"] : List String) →
      env.readAllOk = true →
      (getParams env req).1 = req.body ∧ (getParams env req).2.body = req.body) ∧
    (req.method ≠ "POST" → getParams env req = (req.rawQuery, req)) ∧
    maxMemory = 33554432 := by
  refine ⟨?_, ?_, ?_, ?_, by decide⟩
  · intro hm hct
    constructor
    · intro values hv
      simp [getParams, hm, hct, hv]
    · intro hv
      simp [getParams, hm, hct, hv]
  · intro hm hct
    have hne : contentTypeMain req.contentType ≠
        "application/x-www-form-urlencoded" := by
      rcases hct with h | h <;> simp [h]
    constructor
    · intro values hv
      rcases hct with h | h <;> simp [getParams, hm, h, hne, hv]
    · intro hv
      rcases hct with h | h <;> simp [getParams, hm, h, hne, hv]
  · intro hm hct hr
    simp only [List.mem_cons, List.not_mem_nil, or_false, not_or] at hct
    obtain ⟨h1, h2, h3⟩ := hct
    constructor <;> simp [getParams, hm, h1, h2, h3, hr]
  · intro hm
    simp [getParams, hm]

/-- C7 witness: the amended theorem applied to a parsed form POST and to a
GET request. -/
theorem C7_get_params_witness :
    getParams ⟨some [("a", ["1"])], fun _ => none, true⟩
        ⟨"POST", "application/x-www-form-urlencoded", "", "a=1"⟩ =
      (jsonMarshalValues [("a", ["1"])],
        ⟨"POST", "application/x-www-form-urlencoded", "", "a=1"⟩) ∧
    getParams ⟨none, fun _ => none, true⟩ ⟨"GET", "", "q=7", ""⟩ =
      ("q=7", ⟨"GET", "", "q=7", ""⟩) :=
  ⟨((C7_get_params_amended ⟨some [("a", ["1"])], fun _ => none, true⟩
      ⟨"POST", "application/x-www-form-urlencoded", "", "a=1"⟩).1 rfl (by decide)).1
      [("a", ["1"])] rfl,
   (C7_get_params_amended ⟨none, fun _ => none, true⟩
      ⟨"GET", "", "q=7", ""⟩).2.2.2.1 (by decide)⟩
